import Mathlib

/-!
Verification of the launch-argument relay in `src/src-tauri/src/lib.rs`
(the native backend shim of the Markitdown desktop application).

The shim holds one piece of state, `PendingFile(Mutex<Option<String>>)`.
Three code paths touch it or emit events:

* the `setup` closure (`captureStartupPath` in the spec), which inspects
  `env::args()`, validates `args[1]` against the filesystem, stores it in
  the pending slot and spawns a deferred `open-file` emission after 1500 ms;
* the `tauri_plugin_single_instance` callback (`onSecondLaunch`), which
  validates `args[1]` the same way, emits `open-file` immediately, and
  shows/focuses the `main` window, discarding every error;
* the `get_pending_file` command (`pullPendingPath`), which takes the
  stored value out of the mutex-guarded slot.

The embedding below renders the filesystem as a predicate `String → Bool`
(whether `std::path::Path::new(p).exists()`), event emissions as explicit
records carrying the delay before emission, and the window subsystem as a
small environment record whose show/focus outcomes are parameters, so that
discarding of their results is provable.
-/

namespace Markitdown

/-- A scheduled `emit` call: event name, string payload, and the delay in
milliseconds that elapses before the emission happens (`0` for an
immediate `app.emit`, `1500` for the deferred spawned task). -/
structure Emission where
  event : String
  payload : String
  delayMs : Nat
deriving DecidableEq

/-- The contents of `PendingFile(Mutex<Option<String>>)`: `none` is the
Empty state, `some p` the Holding state of the spec. -/
abbrev PendingFile := Option String

/-- The `get_pending_file` command body, after the lock is acquired:
`state.0.lock().unwrap().take()` returns the held value and leaves the
slot empty. The pair is (returned value, slot contents afterwards). -/
def get_pending_file (s : PendingFile) : Option String × PendingFile :=
  (s, none)

/-- The result of `Mutex::lock` in Rust: either a guard, or a poison error
still carrying the protected data. -/
inductive LockResult (α : Type) where
  | ok : α → LockResult α
  | poisoned : α → LockResult α
deriving DecidableEq

/-- Whether a `Mutex::lock` result is the poison error. -/
def isPoisoned {α : Type} : LockResult α → Bool
  | .poisoned _ => true
  | .ok _ => false

/-- The `.unwrap()` applied to the lock result in `get_pending_file`:
`none` models the panicking branch taken on a poisoned lock. -/
def lockUnwrap {α : Type} : LockResult α → Option α
  | .ok a => some a
  | .poisoned _ => none

/-- The full `get_pending_file` command including lock acquisition:
`state.0.lock().unwrap().take()`. The outer `Option` is `none` exactly
when the `.unwrap()` panics on a poisoned lock. -/
def get_pending_file_locked (l : LockResult PendingFile) :
    Option (Option String × PendingFile) :=
  (lockUnwrap l).map get_pending_file

/-- The `greet` command: `format!("Hello, {}! You\x27ve been greeted from
Rust!", name)`. A pure function of its argument. -/
def greet (name : String) : String :=
  "Hello, " ++ name ++ "! You" ++ "\x27" ++ "ve been greeted from Rust!"

/-- The `setup` closure (`captureStartupPath`): if `args.len() > 1` and
`Path::new(&args[1]).exists()`, store `args[1]` in the pending slot and
spawn a task that sleeps 1500 ms and then emits `open-file` with that
path; otherwise leave the slot untouched and schedule nothing. The
returned pair is (slot contents afterwards, scheduled emissions). -/
def captureStartupPath (fs : String → Bool) (args : List String)
    (s : PendingFile) : PendingFile × List Emission :=
  match args with
  | _ :: path :: _ =>
      if fs path then (some path, [⟨"open-file", path, 1500⟩])
      else (s, [])
  | _ => (s, [])

/-- The window subsystem as seen by the single-instance callback:
whether `get_webview_window("main")` finds the window, and whether the
`show()` and `set_focus()` calls succeed (both results are discarded by
the code via `let _ =`). -/
structure WindowEnv where
  hasMain : Bool
  showOk : Bool
  focusOk : Bool
deriving DecidableEq

/-- Everything observable about one run of the single-instance callback:
the pending slot afterwards, the emissions performed, and whether
`show()` and `set_focus()` were invoked on the main window. -/
structure SecondLaunchResult where
  state : PendingFile
  emits : List Emission
  shown : Bool
  focused : Bool
deriving DecidableEq

/-- The `tauri_plugin_single_instance` callback (`onSecondLaunch`): if
`args.len() > 1` and `Path::new(&args[1]).exists()`, emit `open-file`
immediately (delay 0); then look up the `main` window and, if found, call
`show()` and `set_focus()`, discarding their results; the `_cwd`
argument and the pending slot are never touched. -/
def onSecondLaunch (fs : String → Bool) (env : WindowEnv)
    (args : List String) (cwd : String) (s : PendingFile) :
    SecondLaunchResult :=
  let emits : List Emission :=
    match args with
    | _ :: path :: _ => if fs path then [⟨"open-file", path, 0⟩] else []
    | _ => []
  let _ := cwd
  if env.hasMain then ⟨s, emits, true, true⟩
  else ⟨s, emits, false, false⟩

/-- The deferred push task spawned by the setup closure for a captured
path: sleep 1500 ms, then emit `open-file` with the path. -/
def deferredPushNotification (path : String) : Emission :=
  ⟨"open-file", path, 1500⟩

/-- A startup run: `captureStartupPath` on the initial empty slot,
optionally followed at once by a `get_pending_file` pull. Returns the
pulled value, the slot afterwards, and the scheduled emissions. -/
def runCaptureThenPull (fs : String → Bool) (args : List String)
    (doPull : Bool) : Option String × PendingFile × List Emission :=
  let r := captureStartupPath fs args none
  if doPull then
    let q := get_pending_file r.1
    (q.1, q.2, r.2)
  else (none, r.1, r.2)

/-- The projection of an argument list that the relay actually consumes:
whether the length exceeds 1 and, when it does, the second element. -/
def argView : List String → Option String
  | _ :: p :: _ => some p
  | _ => none

end Markitdown

namespace Markitdown

/-- C1: `pullPendingPath` (`get_pending_file`) returns the stored pending
path and atomically clears it: from Holding `p` a pull returns `p` and
leaves the slot Empty, an immediately following pull returns empty, and
from Empty a pull returns empty. -/
theorem get_pending_file_consume_once (p : String) :
    get_pending_file (some p) = (some p, none) ∧
    get_pending_file (get_pending_file (some p)).2 = (none, none) ∧
    get_pending_file (none : PendingFile) = (none, none) :=
  ⟨rfl, rfl, rfl⟩

/-- C2: for every argument list with more than one element whose second
element names an existing filesystem entry, `captureStartupPath` stores
that second element in the pending slot and schedules exactly the
deferred (1500 ms) `open-file` emission carrying the same path. -/
theorem captureStartupPath_valid_stores_and_schedules
    (fs : String → Bool) (x path : String) (rest : List String)
    (s : PendingFile) (h : fs path = true) :
    captureStartupPath fs (x :: path :: rest) s =
      (some path, [deferredPushNotification path]) := by
  simp [captureStartupPath, deferredPushNotification, h]

/-- Witness for C2: a concrete run with args `["app", "/a"]` on a
filesystem where `/a` exists. -/
theorem captureStartupPath_valid_stores_and_schedules_witness :
    captureStartupPath (fun p => p == "/a") ["app", "/a"] none =
      (some "/a", [deferredPushNotification "/a"]) :=
  captureStartupPath_valid_stores_and_schedules
    (fun p => p == "/a") "app" "/a" [] none (by decide)

/-- Counterexample to C3 as stated: with the slot Holding `/a` and a
second launch delivering the valid different path `/b`, the slot is not
overwritten with `/b`, and the subsequent pull returns `/a`, not `/b`:
the single-instance callback never writes the pending slot. -/
theorem onSecondLaunch_no_overwrite_counterexample :
    ¬ ((onSecondLaunch (fun p => p == "/a" || p == "/b")
          ⟨true, true, true⟩ ["app", "/b"] "/" (some "/a")).state
        = some "/b" ∧
       (get_pending_file
          (onSecondLaunch (fun p => p == "/a" || p == "/b")
            ⟨true, true, true⟩ ["app", "/b"] "/" (some "/a")).state).1
        = some "/b") := by
  decide

/-- C3 amended: if `onSecondLaunch` is invoked with a valid existing path
while the slot is Holding a value, the stored value is left unchanged
(the new path is only emitted immediately as an `open-file` event), and a
subsequent `pullPendingPath` returns the previously stored value. -/
theorem onSecondLaunch_keeps_stored_value
    (fs : String → Bool) (env : WindowEnv) (x q : String)
    (rest : List String) (cwd : String) (p : String)
    (h : fs q = true) :
    (onSecondLaunch fs env (x :: q :: rest) cwd (some p)).state = some p ∧
    (onSecondLaunch fs env (x :: q :: rest) cwd (some p)).emits
      = [⟨"open-file", q, 0⟩] ∧
    (get_pending_file
      (onSecondLaunch fs env (x :: q :: rest) cwd (some p)).state).1
      = some p := by
  cases env with
  | mk m a b => cases m <;> simp [onSecondLaunch, get_pending_file, h]

/-- Witness for the amended C3: slot Holding `/a`, second launch with the
existing path `/b`; the slot and the pull still give `/a`. -/
theorem onSecondLaunch_keeps_stored_value_witness :
    (onSecondLaunch (fun p => p == "/a" || p == "/b")
        ⟨true, true, true⟩ ["app", "/b"] "/" (some "/a")).state
      = some "/a" ∧
    (onSecondLaunch (fun p => p == "/a" || p == "/b")
        ⟨true, true, true⟩ ["app", "/b"] "/" (some "/a")).emits
      = [⟨"open-file", "/b", 0⟩] ∧
    (get_pending_file
      (onSecondLaunch (fun p => p == "/a" || p == "/b")
        ⟨true, true, true⟩ ["app", "/b"] "/" (some "/a")).state).1
      = some "/a" :=
  onSecondLaunch_keeps_stored_value (fun p => p == "/a" || p == "/b")
    ⟨true, true, true⟩ "app" "/b" [] "/" "/a" (by decide)

/-- C4: when the delivered argument list has more than one element and
its second element names an existing entry, `onSecondLaunch` emits the
`open-file` event carrying that path immediately (delay 0); and in every
invocation the main window is shown and focused exactly when the window
lookup succeeds, with the show/focus results discarded (the outcome is
the same whatever `show()` and `set_focus()` return). -/
theorem onSecondLaunch_emit_and_focus
    (fs : String → Bool) (env : WindowEnv) (args : List String)
    (cwd : String) (s : PendingFile) :
    (∀ x path rest, args = x :: path :: rest → fs path = true →
        (onSecondLaunch fs env args cwd s).emits
          = [⟨"open-file", path, 0⟩] ∧
        ∀ e ∈ (onSecondLaunch fs env args cwd s).emits, e.delayMs = 0) ∧
    (onSecondLaunch fs env args cwd s).shown = env.hasMain ∧
    (onSecondLaunch fs env args cwd s).focused = env.hasMain ∧
    (∀ a b : Bool,
        onSecondLaunch fs ⟨env.hasMain, a, b⟩ args cwd s
          = onSecondLaunch fs env args cwd s) := by
  refine ⟨?_, ?_, ?_, ?_⟩
  · rintro x path rest rfl hfs
    cases env with
    | mk m a b => cases m <;> simp [onSecondLaunch, hfs]
  · cases env with
    | mk m a b => cases m <;> simp [onSecondLaunch]
  · cases env with
    | mk m a b => cases m <;> simp [onSecondLaunch]
  · intro a b
    cases env with
    | mk m a0 b0 => cases m <;> simp [onSecondLaunch]

/-- Witness for C4: a concrete second launch with args `["app", "/a"]`
on a filesystem where `/a` exists and a present main window. -/
theorem onSecondLaunch_emit_and_focus_witness :
    (onSecondLaunch (fun p => p == "/a") ⟨true, false, false⟩
        ["app", "/a"] "/" none).emits = [⟨"open-file", "/a", 0⟩] ∧
    (onSecondLaunch (fun p => p == "/a") ⟨true, false, false⟩
        ["app", "/a"] "/" none).shown = true :=
  ⟨((onSecondLaunch_emit_and_focus (fun p => p == "/a")
      ⟨true, false, false⟩ ["app", "/a"] "/" none).1
      "app" "/a" [] rfl (by decide)).1,
   (onSecondLaunch_emit_and_focus (fun p => p == "/a")
      ⟨true, false, false⟩ ["app", "/a"] "/" none).2.1⟩

/-- C5: for every argument list of length at most 1, and for every list
whose second element does not name an existing entry,
`captureStartupPath` is a silent no-op: the pending slot is unchanged
(so it stays Empty when it was Empty) and no emission is scheduled; the
function is total, so no error is raised. -/
theorem captureStartupPath_invalid_noop
    (fs : String → Bool) (args : List String) (s : PendingFile)
    (h : args.length ≤ 1 ∨
          ∃ x path rest, args = x :: path :: rest ∧ fs path = false) :
    captureStartupPath fs args s = (s, []) := by
  rcases h with h | ⟨x, path, rest, rfl, hfs⟩
  · match args, h with
    | [], _ => rfl
    | [_], _ => rfl
  · simp [captureStartupPath, hfs]

/-- Witness for C5: the singleton argument list `["app"]` and the list
`["app", "/missing"]` on a filesystem where `/missing` does not exist. -/
theorem captureStartupPath_invalid_noop_witness :
    captureStartupPath (fun p => p == "/a") ["app"] none = (none, []) ∧
    captureStartupPath (fun p => p == "/a") ["app", "/missing"] none
      = (none, []) :=
  ⟨captureStartupPath_invalid_noop (fun p => p == "/a") ["app"] none
      (Or.inl (by decide)),
   captureStartupPath_invalid_noop (fun p => p == "/a")
      ["app", "/missing"] none
      (Or.inr ⟨"app", "/missing", [], rfl, by decide⟩)⟩

/-- C6: for every captured path the setup closure schedules exactly one
emission carrying that path, its delay is the fixed 1500 ms (within the
1 to 1.5 second order stated by the spec), and the scheduled emissions
are the same whether or not `pullPendingPath` has already consumed the
slot. -/
theorem deferred_emit_once_after_delay
    (fs : String → Bool) (x path : String) (rest : List String)
    (h : fs path = true) :
    (captureStartupPath fs (x :: path :: rest) none).2
      = [deferredPushNotification path] ∧
    (∀ e ∈ (captureStartupPath fs (x :: path :: rest) none).2,
        e.delayMs = 1500 ∧ 1000 ≤ e.delayMs ∧ e.delayMs ≤ 1500) ∧
    (runCaptureThenPull fs (x :: path :: rest) true).2.2
      = (runCaptureThenPull fs (x :: path :: rest) false).2.2 := by
  refine ⟨?_, ?_, ?_⟩
  · simp [captureStartupPath, deferredPushNotification, h]
  · intro e he
    simp [captureStartupPath, h] at he
    simp [he]
  · simp [runCaptureThenPull]

/-- Witness for C6: the concrete capture of `/a` schedules the single
1500 ms emission, consumed-or-not. -/
theorem deferred_emit_once_after_delay_witness :
    (captureStartupPath (fun p => p == "/a") ["app", "/a"] none).2
      = [deferredPushNotification "/a"] ∧
    (runCaptureThenPull (fun p => p == "/a") ["app", "/a"] true).2.2
      = (runCaptureThenPull (fun p => p == "/a") ["app", "/a"] false).2.2 :=
  ⟨(deferred_emit_once_after_delay (fun p => p == "/a") "app" "/a" []
      (by decide)).1,
   (deferred_emit_once_after_delay (fun p => p == "/a") "app" "/a" []
      (by decide)).2.2⟩

/-- C7: under the precondition that the lock is not poisoned, the
panicking branch of the `.unwrap()` in `get_pending_file` is unreachable:
the command returns (the outer `Option` is `some`) and its value is the
pure take on the protected state. -/
theorem get_pending_file_locked_total
    (l : LockResult PendingFile) (s : PendingFile)
    (h : l = LockResult.ok s) :
    get_pending_file_locked l = some (get_pending_file s) := by
  subst h
  rfl

/-- Witness for C7: an unpoisoned lock holding `/a` yields the successful
pull of `/a`. -/
theorem get_pending_file_locked_total_witness :
    get_pending_file_locked (LockResult.ok (some "/a"))
      = some (some "/a", none) :=
  get_pending_file_locked_total (LockResult.ok (some "/a")) (some "/a") rfl

/-- C8: the relay consumes only `argv[1]` and the argument count. Two
argument lists that agree on whether their length exceeds 1 and, when it
does, on their second element (that is, on `argView`), give the same
`captureStartupPath` result; and on second launch the same holds with
any two working directories as well. -/
theorem relay_noninterference
    (fs : String → Bool) (args1 args2 : List String) (s : PendingFile)
    (h : argView args1 = argView args2) :
    captureStartupPath fs args1 s = captureStartupPath fs args2 s ∧
    ∀ (env : WindowEnv) (cwd1 cwd2 : String),
      onSecondLaunch fs env args1 cwd1 s
        = onSecondLaunch fs env args2 cwd2 s := by
  have hmain : ∀ t : List String,
      captureStartupPath fs t s =
        (match argView t with
          | some p => if fs p then (some p, [⟨"open-file", p, 1500⟩])
                      else (s, [])
          | none => (s, [])) := by
    intro t
    match t with
    | [] => rfl
    | [_] => rfl
    | _ :: _ :: _ => rfl
  have hsec : ∀ (t : List String) (env : WindowEnv) (cwd : String),
      onSecondLaunch fs env t cwd s =
        (let emits : List Emission :=
          match argView t with
          | some p => if fs p then [⟨"open-file", p, 0⟩] else []
          | none => []
        if env.hasMain then ⟨s, emits, true, true⟩
        else ⟨s, emits, false, false⟩) := by
    intro t env cwd
    match t with
    | [] => rfl
    | [_] => rfl
    | _ :: _ :: _ => rfl
  refine ⟨?_, ?_⟩
  · rw [hmain args1, hmain args2, h]
  · intro env cwd1 cwd2
    rw [hsec args1 env cwd1, hsec args2 env cwd2, h]

/-- Witness for C8: `["app", "/a"]` and `["app", "/a", "--flag"]` agree
on the consumed projection and give identical capture results. -/
theorem relay_noninterference_witness :
    argView ["app", "/a"] = argView ["app", "/a", "--flag"] ∧
    captureStartupPath (fun p => p == "/a") ["app", "/a"] none
      = captureStartupPath (fun p => p == "/a") ["app", "/a", "--flag"]
          none :=
  ⟨rfl,
   (relay_noninterference (fun p => p == "/a") ["app", "/a"]
      ["app", "/a", "--flag"] none rfl).1⟩

/-- C9: the single-instance callback never writes the pending slot: for
every invocation and every prior slot state, the state afterwards equals
the state before; only the emission and the window show/focus occur. -/
theorem onSecondLaunch_preserves_state
    (fs : String → Bool) (env : WindowEnv) (args : List String)
    (cwd : String) (s : PendingFile) :
    (onSecondLaunch fs env args cwd s).state = s := by
  cases env with
  | mk m a b => cases m <;> simp [onSecondLaunch]

/-- C10: the `greet` command returns exactly
`"Hello, " ++ name ++ "! You\x27ve been greeted from Rust!"` for every
input string, and, being a pure function, has no other effect. -/
theorem greet_exact (name : String) :
    greet name
      = "Hello, " ++ name
          ++ ("! You" ++ ("\x27" ++ "ve been greeted from Rust!")) := by
  simp [greet, String.append_assoc]

end Markitdown
